import Mathlib

/-!
Shallow embedding of `src/modules/layers/src/icon-layer/icon-manager.js`.

The embedding covers the shelf packer (`buildMapping` / `buildRowMapping`),
the icon differ (`getDiffIcons`), the auto-packing updater
(`IconManager._updateAutoPacking`), the `IconManager` constructor's cache
registration, and `IconManager.getIconMapping`.

Modelling conventions:
- JS strings whose absence matters (`icon.id`, `icon.url`) are `String`,
  with `""` standing for a missing/falsy value, matching JS truthiness of
  strings.
- JS objects keyed by icon id are modelled two ways: the atlas mapping as a
  total function `String → Option Entry` (lookup semantics is all the atlas
  code uses), and the differ's accumulator as an insertion-ordered
  association list, because `Object.values` iterates string keys in
  insertion order and that order feeds the packer.
- Thrown exceptions become `Except String`; a JS `null` return or argument
  becomes `Option`.
- The strict inequality `!icon.url !== cachedIcons[id].url` on line 156 of
  the source compares a boolean with a string; `jsStrictEq` models JS strict
  equality on that fragment of values, so the embedding reproduces the
  source expression exactly rather than simplifying it.
-/

/-- Icon descriptor as consumed by the icon manager: `id`, `url` (either may
be absent, modelled as `""`), and pixel `width`/`height`. -/
structure Icon where
  id : String
  url : String
  width : Nat
  height : Nat
deriving DecidableEq, Repr

/-- PositionedIcon: the result of `Object.assign({}, icon, {x, y})` in
`buildRowMapping` — the icon's fields extended with its top-left atlas
position. -/
structure Entry where
  id : String
  url : String
  width : Nat
  height : Nat
  x : Nat
  y : Nat
deriving DecidableEq, Repr

/-- JS truthiness of a string: only the empty string is falsy. -/
def jsTruthy (s : String) : Bool := s ≠ ""

/-- Fragment of JS values needed to model the expression
`!icon.url !== cachedIcons[id].url`: booleans and strings. -/
inductive JSVal where
  | bool (b : Bool)
  | str (s : String)
deriving DecidableEq

/-- JS strict equality `===` on the `JSVal` fragment: values of different
runtime types are never strictly equal. -/
def jsStrictEq : JSVal → JSVal → Bool
  | .bool a, .bool b => a == b
  | .str a, .str b => a == b
  | _, _ => false

/-- Source `getIconId` (line 52): `icon && (icon.id || icon.url)` for a
present icon — the id, falling back to the url when the id is falsy. -/
def getIconId (icon : Icon) : String :=
  if jsTruthy icon.id then icon.id else icon.url

/-- Atlas mapping from icon id to its positioned entry. Only lookups and
single-key updates are performed on it by the source, so it is modelled as a
total function into `Option`. -/
abbrev Mapping : Type := String → Option Entry

/-- Empty mapping, the `{}` the constructor registers. -/
def Mapping.empty : Mapping := fun _ => none

/-- JS property write `mapping[id] = v`. -/
def Mapping.set (m : Mapping) (k : String) (v : Entry) : Mapping :=
  fun k' => if k' = k then some v else m k'

/-- Ceiling of the base-2 logarithm, computed by structural recursion on a
fuel argument so that the kernel can evaluate it (`fuel = n` suffices, since
the argument at least halves every step). `log2CeilFuel_eq_clog` identifies
it with `Nat.clog 2`. -/
def log2CeilFuel : Nat → Nat → Nat
  | _, 0 => 0
  | n, fuel + 1 => if n ≤ 1 then 0 else log2CeilFuel ((n + 1) / 2) fuel + 1

/-- Ceiling of the base-2 logarithm: `⌈log₂ n⌉` (0 for `n ≤ 1`). -/
def log2Ceil (n : Nat) : Nat := log2CeilFuel n n

/-- Source `nextPowOfTwo` (line 30): `Math.pow(2, Math.ceil(Math.log2 n))`,
which for an integer `n ≥ 1` is `2 ^ ⌈log₂ n⌉`; for `n = 0` JS evaluates it
to `2 ^ (-∞) = 0`. -/
def nextPowOfTwo (n : Nat) : Nat :=
  if n = 0 then 0 else 2 ^ log2Ceil n

/-- Fuel elimination: with enough fuel, `log2CeilFuel` is `Nat.clog 2`. -/
theorem log2CeilFuel_eq_clog :
    ∀ fuel n, n ≤ fuel → log2CeilFuel n fuel = Nat.clog 2 n := by
  intro fuel
  induction fuel with
  | zero =>
    intro n hn
    interval_cases n
    simp [log2CeilFuel]
  | succ f ih =>
    intro n hn
    by_cases h1 : n ≤ 1
    · simp [log2CeilFuel, h1, Nat.clog_of_right_le_one h1]
    · push_neg at h1
      have h2 : 2 ≤ n := h1
      have hstep : log2CeilFuel n (f + 1) = log2CeilFuel ((n + 1) / 2) f + 1 := by
        simp [log2CeilFuel, Nat.not_le.mpr h1]
      rw [hstep, Nat.clog_of_two_le (by norm_num) h2]
      have harg : (n + 2 - 1) / 2 = (n + 1) / 2 := by norm_num
      rw [harg, ih ((n + 1) / 2) (by omega)]

/-- Identification of `log2Ceil` with `Nat.clog 2`. -/
theorem log2Ceil_eq_clog (n : Nat) : log2Ceil n = Nat.clog 2 n :=
  log2CeilFuel_eq_clog n n le_rfl

/-- On positive input, `nextPowOfTwo` is `2 ^ Nat.clog 2 n`. -/
theorem nextPowOfTwo_eq_two_pow_clog {n : Nat} (hn : n ≠ 0) :
    nextPowOfTwo n = 2 ^ Nat.clog 2 n := by
  simp [nextPowOfTwo, hn, log2Ceil_eq_clog]

/-- One queued icon of the current shelf: the element
`{icon, xOffset}` pushed onto `columns` (line 112). -/
structure Column where
  icon : Icon
  xOffset : Nat
deriving DecidableEq, Repr

/-- Entry committed by `buildRowMapping`:
`Object.assign({}, icon, {x: xOffset, y: yOffset})`. -/
def positionIcon (icon : Icon) (x y : Nat) : Entry :=
  { id := icon.id, url := icon.url, width := icon.width, height := icon.height,
    x := x, y := y }

/-- Source `buildRowMapping` (lines 58-67): commit every queued column of a
shelf into the mapping at the shelf's top `yOffset`. -/
def buildRowMapping (mapping : Mapping) (columns : List Column) (yOffset : Nat) :
    Mapping :=
  columns.foldl
    (fun m c => m.set (getIconId c.icon) (positionIcon c.icon c.xOffset yOffset))
    mapping

/-- Loop state of `buildMapping`: the mapping built so far, the cursor, the
running shelf height and the queued columns of the current shelf. -/
structure PackState where
  mapping : Mapping
  xOffset : Nat
  yOffset : Nat
  rowHeight : Nat
  columns : List Column

/-- Shelf close (lines 104-109): commit the queued columns at the current
`yOffset`, move the cursor to the start of the next shelf. -/
def closeRow (buffer : Nat) (s : PackState) : PackState :=
  { mapping := buildRowMapping s.mapping s.columns s.yOffset
    xOffset := 0
    yOffset := s.rowHeight + s.yOffset + buffer
    rowHeight := 0
    columns := [] }

/-- Icon queueing (lines 112-118): queue the icon at the cursor, advance the
cursor, and raise the running shelf height. -/
def pushIcon (buffer : Nat) (s : PackState) (icon : Icon) : PackState :=
  { mapping := s.mapping
    xOffset := s.xOffset + icon.width + buffer
    yOffset := s.yOffset
    rowHeight := max s.rowHeight icon.height
    columns := s.columns ++ [{ icon := icon, xOffset := s.xOffset }] }

/-- Loop body of `buildMapping` (lines 98-119): close the current shelf when
the icon would exceed `maxCanvasWidth` (line 103), then queue the icon. -/
def packStep (buffer maxCanvasWidth : Nat) (s : PackState) (icon : Icon) :
    PackState :=
  pushIcon buffer
    (if maxCanvasWidth < s.xOffset + icon.width + buffer then closeRow buffer s
     else s)
    icon

/-- Full loop of `buildMapping` over the icon list, from a given initial
state (`rowHeight` starts at 0, `columns` empty). -/
def packRun (icons : List Icon) (buffer : Nat) (mapping : Mapping)
    (xOffset yOffset maxCanvasWidth : Nat) : PackState :=
  icons.foldl (packStep buffer maxCanvasWidth)
    { mapping := mapping, xOffset := xOffset, yOffset := yOffset,
      rowHeight := 0, columns := [] }

/-- Return value of `buildMapping` (lines 127-133). -/
structure BuildResult where
  mapping : Mapping
  xOffset : Nat
  yOffset : Nat
  canvasWidth : Nat
  canvasHeight : Nat

/-- Final flush (lines 121-123): commit the last, possibly partial shelf
when it has queued columns. -/
def flushedMapping (s : PackState) : Mapping :=
  if s.columns.length > 0 then buildRowMapping s.mapping s.columns s.yOffset
  else s.mapping

/-- Source `buildMapping` (lines 79-134): run the packing loop, flush the
last partial shelf, and compute the power-of-two canvas height from the
final `rowHeight + yOffset + buffer` (line 125). -/
def buildMapping (icons : List Icon) (buffer : Nat) (mapping : Mapping)
    (xOffset yOffset maxCanvasWidth : Nat) : BuildResult :=
  { mapping := flushedMapping (packRun icons buffer mapping xOffset yOffset maxCanvasWidth)
    xOffset := (packRun icons buffer mapping xOffset yOffset maxCanvasWidth).xOffset
    yOffset := (packRun icons buffer mapping xOffset yOffset maxCanvasWidth).yOffset
    canvasWidth := maxCanvasWidth
    canvasHeight :=
      nextPowOfTwo
        ((packRun icons buffer mapping xOffset yOffset maxCanvasWidth).rowHeight +
          (packRun icons buffer mapping xOffset yOffset maxCanvasWidth).yOffset + buffer) }

/-- Differ accumulator: the `icons` object built by `getDiffIcons`, an
insertion-ordered association list so that `Object.values` order is kept. -/
abbrev DiffMap : Type := List (String × Icon)

/-- JS property write on the differ accumulator: replace in place when the
key exists, append otherwise (JS string keys keep insertion order). -/
def DiffMap.set (m : DiffMap) (k : String) (v : Icon) : DiffMap :=
  if (m.lookup k).isSome then m.map (fun p => if p.1 = k then (k, v) else p)
  else m ++ [(k, v)]

/-- Condition on line 156 of the source, verbatim:
`!icons[id] || !cachedIcons[id] || !icon.url !== cachedIcons[id].url`.
The third disjunct strict-compares the boolean `!icon.url` with the cached
url string. -/
def diffWanted (icons : DiffMap) (cachedIcons : Mapping) (id : String)
    (icon : Icon) : Bool :=
  !(icons.lookup id).isSome ||
    match cachedIcons id with
    | none => true
    | some c => !jsStrictEq (.bool (!jsTruthy icon.url)) (.str c.url)

/-- Loop of `getDiffIcons` (lines 144-159) over the data points: throw on a
missing icon or missing url, otherwise add the icon to the accumulator when
line 156's condition holds. -/
def getDiffIconsGo {α : Type} (getIcon : α → Option Icon) (cachedIcons : Mapping) :
    DiffMap → List α → Except String DiffMap
  | icons, [] => .ok icons
  | icons, point :: rest =>
    match getIcon point with
    | none => .error "Icon is missing."
    | some icon =>
      if !jsTruthy icon.url then .error "Icon url is missing."
      else
        let id := getIconId icon
        getDiffIconsGo getIcon cachedIcons
          (if diffWanted icons cachedIcons id icon then icons.set id icon else icons)
          rest

/-- Source `getDiffIcons` (lines 138-162): `null` when `data` or `getIcon`
is absent, otherwise the accumulated diff object (or a thrown error). -/
def getDiffIcons {α : Type} (data : Option (List α))
    (getIcon : Option (α → Option Icon)) (cachedIcons : Mapping) :
    Option (Except String DiffMap) :=
  match data, getIcon with
  | some d, some g => some (getDiffIconsGo g cachedIcons [] d)
  | _, _ => none

/-- GPU texture handle: the fields of `Texture2D` the icon manager reads. -/
structure Texture where
  width : Nat
  height : Nat
deriving DecidableEq, Repr

/-- Cache entry for one gl context. The constructor (lines 176-182) stores
`{mapping, xOffset, yOffset, canvasWidth, canvasHeight}` and the updater
(lines 291-297) stores `{mapping, texture, xOffset, yOffset, canvasHeight}`;
`canvasWidth` and `texture` are `Option` because each is present in only one
of the two object shapes. -/
structure AtlasState where
  mapping : Mapping
  xOffset : Nat
  yOffset : Nat
  canvasWidth : Option Nat
  canvasHeight : Nat
  texture : Option Texture

/-- Observable side effects of `_updateAutoPacking`: texture creation
(line 281), the resize's surface write (`_resizeTexture`, line 288), the
synchronous `onUpdate` notification (line 299), and one scheduled
asynchronous load-decode-write per diff icon (`_loadIcons`, line 302). -/
inductive UpdateEvent where
  | textureCreate (width height : Nat)
  | resizeWrite (width height : Nat)
  | notify
  | iconLoad (id : String)
deriving DecidableEq, Repr

/-- Source `IconManager._updateAutoPacking` (lines 263-304) for a context
whose cache entry is `st`: run the differ against the cached mapping; when
the diff is non-empty, run the packer from the cached cursor, create or
resize the texture as needed, and commit
`{mapping, texture, xOffset, yOffset, canvasHeight}` (no `canvasWidth`).
A differ throw propagates as `.error` before any commit. -/
def commitUpdate (st : AtlasState) (icons : List Icon)
    (buffer maxCanvasWidth : Nat) : AtlasState × List UpdateEvent :=
  let r := buildMapping icons buffer st.mapping st.xOffset st.yOffset maxCanvasWidth
  let created : Texture × List UpdateEvent :=
    match st.texture with
    | some t => (t, [])
    | none =>
      ({ width := maxCanvasWidth, height := r.canvasHeight },
        [.textureCreate maxCanvasWidth r.canvasHeight])
  let resized : Texture × List UpdateEvent :=
    if created.1.height ≠ r.canvasHeight then
      ({ width := created.1.width, height := r.canvasHeight },
        [.resizeWrite created.1.width r.canvasHeight])
    else (created.1, [])
  ({ mapping := r.mapping
     xOffset := r.xOffset
     yOffset := r.yOffset
     canvasWidth := none
     canvasHeight := r.canvasHeight
     texture := some resized.1 },
    created.2 ++ resized.2 ++ [.notify] ++
      icons.map (fun i => .iconLoad (getIconId i)))

/-- Branching skeleton of `_updateAutoPacking` around `commitUpdate`: empty
or erroring diffs never reach the commit. -/
def updateAutoPacking {α : Type} (st : AtlasState) (data : Option (List α))
    (getIcon : Option (α → Option Icon)) (buffer maxCanvasWidth : Nat) :
    Except String (AtlasState × List UpdateEvent) :=
  match getDiffIcons data getIcon st.mapping with
  | none => .ok (st, [])
  | some (.error e) => .error e
  | some (.ok diff) =>
    if (diff.map Prod.snd).length > 0 then
      .ok (commitUpdate st (diff.map Prod.snd) buffer maxCanvasWidth)
    else .ok (st, [])

/-- Cache entry for the context after an `_updateAutoPacking` call: a thrown
error propagates out of the call before `cached.set` runs, so the entry is
unchanged; otherwise it is the committed state. -/
def applyUpdate {α : Type} (st : AtlasState) (data : Option (List α))
    (getIcon : Option (α → Option Icon)) (buffer maxCanvasWidth : Nat) :
    AtlasState :=
  match updateAutoPacking st data getIcon buffer maxCanvasWidth with
  | .error _ => st
  | .ok (s, _) => s

/-- Modelled from the spec: the `LRUCache` class is imported from
`../text-layer/lru-cache`, which is not part of this repository snapshot.
Spec section 4.3: a bounded-capacity least-recently-used store; `set`
inserts or replaces and touches the entry, evicting the least-recently
touched entry when capacity would be exceeded. The list is kept
most-recently-touched first; context identity is an opaque comparable
token, modelled as `Nat`. -/
abbrev LRUCache : Type := List (Nat × AtlasState)

/-- Modelled from the spec: `LRUCache.set` — insert or replace the key at
most-recently-used position, then truncate to capacity (evicting from the
least-recently-used end). -/
def LRUCache.set (cap : Nat) (c : LRUCache) (k : Nat) (v : AtlasState) :
    LRUCache :=
  ((k, v) :: c.filter (fun p => !(p.1 == k))).take cap

/-- Modelled from the spec: cache lookup (recency bookkeeping aside, which
no claim here observes). -/
def LRUCache.lookup (c : LRUCache) (k : Nat) : Option AtlasState :=
  (c.find? (fun p => p.1 == k)).map Prod.snd

/-- State the `IconManager` constructor registers for its gl context
(lines 176-182): all-empty, with `canvasWidth` present and 0. -/
def emptyAtlasState : AtlasState :=
  { mapping := Mapping.empty, xOffset := 0, yOffset := 0,
    canvasWidth := some 0, canvasHeight := 0, texture := none }

/-- Cache effect of `new IconManager(gl, ...)` (lines 164-189): the
constructor unconditionally runs `cached.set(gl, emptyAtlasState)`. The
shared cache has capacity 3 (line 28). -/
def iconManagerConstruct (c : LRUCache) (gl : Nat) : LRUCache :=
  LRUCache.set 3 c gl emptyAtlasState

/-- Return value of `getIconMapping`: either a positioned entry or the `{}`
produced by `|| {}` when the lookup is undefined. -/
inductive IconMappingResult where
  | entry (e : Entry)
  | emptyObject
deriving DecidableEq, Repr

/-- Source `getIconMapping` (lines 200-210), auto-packing branch: look the
extracted icon's id up in the cached mapping, `|| {}`. -/
def getIconMappingAuto {α : Type} (getIcon : α → Icon) (cachedMapping : Mapping)
    (dataPoint : α) : IconMappingResult :=
  match cachedMapping (getIconId (getIcon dataPoint)) with
  | some e => .entry e
  | none => .emptyObject

/-- Source `getIconMapping` (line 209), prepacked branch: index the
user-supplied mapping with the extracted icon itself (a string icon name in
this mode), `|| {}`. -/
def getIconMappingManual {α : Type} (getIcon : α → String)
    (iconMapping : Mapping) (dataPoint : α) : IconMappingResult :=
  match iconMapping (getIcon dataPoint) with
  | some e => .entry e
  | none => .emptyObject

/-- Exact axis-aligned box overlap between two positioned entries: the boxes
are the half-open rectangles from the spec. -/
abbrev boxesOverlap (p q : Entry) : Prop :=
  p.x < q.x + q.width ∧ q.x < p.x + p.width ∧
    p.y < q.y + q.height ∧ q.y < p.y + p.height

/-- Events emitted by one `_updateAutoPacking` call (none when it throws,
since the throw happens before any effectful step). -/
def updateEvents {α : Type} (st : AtlasState) (data : Option (List α))
    (getIcon : Option (α → Option Icon)) (buffer maxCanvasWidth : Nat) :
    List UpdateEvent :=
  match updateAutoPacking st data getIcon buffer maxCanvasWidth with
  | .ok (_, evs) => evs
  | .error _ => []

/-! Concrete inputs used by the evaluation theorems below. -/

def iconAUrl1 : Icon := { id := "a", url := "url1", width := 10, height := 10 }

def iconAUrl2 : Icon := { id := "a", url := "url2", width := 10, height := 10 }

def iconBUrl3 : Icon := { id := "b", url := "url3", width := 10, height := 10 }

def cachedMappingA : Mapping :=
  Mapping.empty.set "a"
    { id := "a", url := "url1", width := 10, height := 10, x := 0, y := 0 }

def squareIcon1 : Icon := { id := "i1", url := "u1", width := 40, height := 20 }

def squareIcon2 : Icon := { id := "i2", url := "u2", width := 40, height := 20 }

def squareIcon3 : Icon := { id := "i3", url := "u3", width := 40, height := 20 }

def tallIcon : Icon := { id := "A", url := "uA", width := 40, height := 50 }

def shortIconB : Icon := { id := "B", url := "uB", width := 40, height := 10 }

def shortIconC : Icon := { id := "C", url := "uC", width := 40, height := 10 }

def c3FirstCall : BuildResult := buildMapping [tallIcon] 4 Mapping.empty 0 0 100

def c3SecondCall : BuildResult :=
  buildMapping [shortIconB, shortIconC] 4 c3FirstCall.mapping c3FirstCall.xOffset
    c3FirstCall.yOffset 100

def stateAfterFirstUpdate : AtlasState :=
  applyUpdate emptyAtlasState (some [iconAUrl1]) (some some) 4 1024

def stateAfterRepeatUpdate : AtlasState :=
  applyUpdate stateAfterFirstUpdate (some [iconAUrl1]) (some some) 4 1024

/-- C1: `getDiffIcons` is claimed to return exactly the new-or-changed
icons, so an icon cached with an unchanged url must not be returned. The
code (line 156, `!icon.url !== cachedIcons[id].url`, a boolean strict-compared
with a string, hence always true) returns the unchanged icon anyway: with
cached mapping `{a: url1}` and batch `[{id: a, url: url1}]` the diff is
`{a: {id: a, url: url1}}`, not the empty object the claim requires. -/
theorem getDiffIcons_returns_unchanged_icon :
    getDiffIcons (some [iconAUrl1]) (some some) cachedMappingA =
      some (.ok [("a", iconAUrl1)]) := rfl

/-- C2: a second `_updateAutoPacking` with a batch whose only icon is cached
with an unchanged url is claimed to be a no-op. Because the differ returns
the unchanged icon (line 156 bug), the second call re-packs it: the entry
for `a` moves from `(0, 0)` to `(14, 0)`, the cursor moves from 14 to 28,
and the call emits a notification and schedules a surface write. -/
theorem updateAutoPacking_rerun_not_noop :
    stateAfterFirstUpdate.mapping "a" =
        some { id := "a", url := "url1", width := 10, height := 10, x := 0, y := 0 } ∧
      stateAfterRepeatUpdate.mapping "a" =
        some { id := "a", url := "url1", width := 10, height := 10, x := 14, y := 0 } ∧
      stateAfterFirstUpdate.xOffset = 14 ∧ stateAfterRepeatUpdate.xOffset = 28 ∧
      updateEvents stateAfterFirstUpdate (some [iconAUrl1]) (some some) 4 1024 =
        [.notify, .iconLoad "a"] := by
  refine ⟨?_, ?_, ?_, ?_, ?_⟩ <;> decide

/-- C3: the claim asserts that across `buildMapping` calls that resume from
the previous call's cursor, committed boxes never overlap. Counterexample:
call one packs a 40×50 icon `A` at `(0, 0)`; call two resumes from cursor
`(44, 0)` with `rowHeight` reset to 0, and when it closes the shared shelf it
advances `yOffset` by only its own `rowHeight` 10, so its new shelf places
`C` at `(0, 14)` — inside `A`'s box `[0, 40) × [0, 50)`. -/
theorem buildMapping_cross_call_overlap :
    c3SecondCall.mapping "A" =
        some { id := "A", url := "uA", width := 40, height := 50, x := 0, y := 0 } ∧
      c3SecondCall.mapping "C" =
        some { id := "C", url := "uC", width := 40, height := 10, x := 0, y := 14 } ∧
      boxesOverlap
        { id := "A", url := "uA", width := 40, height := 50, x := 0, y := 0 }
        { id := "C", url := "uC", width := 40, height := 10, x := 0, y := 14 } := by
  refine ⟨?_, ?_, ?_⟩ <;> decide

/-- C4: packing three 40×20 icons with buffer 4 and max width 100 from an
empty mapping and cursor `(0, 0)` places them at `(0, 0)`, `(44, 0)` and
`(0, 24)`, and returns canvas height 64, the next power of two ≥ 48. -/
theorem buildMapping_packing_example :
    (buildMapping [squareIcon1, squareIcon2, squareIcon3] 4 Mapping.empty 0 0 100).mapping
        "i1" = some { id := "i1", url := "u1", width := 40, height := 20, x := 0, y := 0 } ∧
      (buildMapping [squareIcon1, squareIcon2, squareIcon3] 4 Mapping.empty 0 0 100).mapping
        "i2" = some { id := "i2", url := "u2", width := 40, height := 20, x := 44, y := 0 } ∧
      (buildMapping [squareIcon1, squareIcon2, squareIcon3] 4 Mapping.empty 0 0 100).mapping
        "i3" = some { id := "i3", url := "u3", width := 40, height := 20, x := 0, y := 24 } ∧
      (buildMapping [squareIcon1, squareIcon2, squareIcon3] 4 Mapping.empty 0 0 100).canvasHeight
        = 64 := by
  refine ⟨?_, ?_, ?_, ?_⟩ <;> decide

/-- Writing another key does not change a mapping lookup. -/
theorem Mapping.set_ne (m : Mapping) {k k1 : String} (v : Entry) (h : k ≠ k1) :
    m.set k1 v k = m k := by
  simp [Mapping.set, h]

/-- Committing a shelf whose columns all have ids other than `k` does not
change the lookup at `k`. -/
theorem buildRowMapping_unrelated (cols : List Column) (m : Mapping) (y : Nat)
    {k : String} (h : ∀ c ∈ cols, getIconId c.icon ≠ k) :
    buildRowMapping m cols y k = m k := by
  induction cols generalizing m with
  | nil => rfl
  | cons c cs ih =>
    have hc : getIconId c.icon ≠ k := h c (by simp)
    have hrest : ∀ c2 ∈ cs, getIconId c2.icon ≠ k := fun c2 hc2 => h c2 (by simp [hc2])
    show buildRowMapping (m.set (getIconId c.icon) (positionIcon c.icon c.xOffset y))
      cs y k = m k
    rw [ih _ hrest, Mapping.set_ne _ _ (Ne.symm hc)]

/-- One packing step neither changes an unrelated key's mapping entry nor
queues a column with that key. -/
theorem packStep_unrelated (buffer maxW : Nat) (s : PackState) (i : Icon)
    {k : String} (hi : getIconId i ≠ k)
    (hcols : ∀ c ∈ s.columns, getIconId c.icon ≠ k) :
    (packStep buffer maxW s i).mapping k = s.mapping k ∧
      ∀ c ∈ (packStep buffer maxW s i).columns, getIconId c.icon ≠ k := by
  unfold packStep pushIcon
  by_cases hclose : maxW < s.xOffset + i.width + buffer
  · rw [if_pos hclose]
    refine ⟨buildRowMapping_unrelated s.columns s.mapping s.yOffset hcols, ?_⟩
    intro c hc
    simp only [closeRow, List.nil_append, List.mem_singleton] at hc
    rw [hc]
    exact hi
  · rw [if_neg hclose]
    refine ⟨rfl, ?_⟩
    intro c hc
    rcases List.mem_append.mp hc with h1 | h1
    · exact hcols c h1
    · rw [List.mem_singleton.mp h1]
      exact hi

/-- The packing loop neither changes an unrelated key's mapping entry nor
queues a column with that key. -/
theorem packFoldl_unrelated (buffer maxW : Nat) {k : String} :
    ∀ (icons : List Icon) (s : PackState),
      (∀ i ∈ icons, getIconId i ≠ k) →
      (∀ c ∈ s.columns, getIconId c.icon ≠ k) →
      (icons.foldl (packStep buffer maxW) s).mapping k = s.mapping k ∧
        ∀ c ∈ (icons.foldl (packStep buffer maxW) s).columns,
          getIconId c.icon ≠ k := by
  intro icons
  induction icons with
  | nil => exact fun s _ hcols => ⟨rfl, hcols⟩
  | cons i is ih =>
    intro s hicons hcols
    have hi : getIconId i ≠ k := hicons i (by simp)
    have his : ∀ j ∈ is, getIconId j ≠ k := fun j hj => hicons j (by simp [hj])
    obtain ⟨hm, hc⟩ := packStep_unrelated buffer maxW s i hi hcols
    obtain ⟨hm2, hc2⟩ := ih (packStep buffer maxW s i) his hc
    exact ⟨hm2.trans hm, hc2⟩

/-- Flushing the last shelf does not change an unrelated key's entry. -/
theorem flushedMapping_unrelated (s : PackState) {k : String}
    (h : ∀ c ∈ s.columns, getIconId c.icon ≠ k) :
    flushedMapping s k = s.mapping k := by
  unfold flushedMapping
  by_cases hlen : s.columns.length > 0
  · rw [if_pos hlen]
    exact buildRowMapping_unrelated s.columns s.mapping s.yOffset h
  · rw [if_neg hlen]

/-- `buildMapping` leaves the entry of every id that is not among its input
icons' ids unchanged. -/
theorem buildMapping_unrelated (icons : List Icon) (buffer : Nat) (m : Mapping)
    (x y maxW : Nat) {k : String} (h : ∀ i ∈ icons, getIconId i ≠ k) :
    (buildMapping icons buffer m x y maxW).mapping k = m k := by
  obtain ⟨hm, hc⟩ :=
    packFoldl_unrelated buffer maxW icons
      { mapping := m, xOffset := x, yOffset := y, rowHeight := 0, columns := [] }
      h (by simp)
  calc (buildMapping icons buffer m x y maxW).mapping k
      = flushedMapping (packRun icons buffer m x y maxW) k := rfl
    _ = (packRun icons buffer m x y maxW).mapping k := flushedMapping_unrelated _ hc
    _ = m k := hm

/-- A successful `_updateAutoPacking` either took a no-op branch (absent or
empty diff: identical state, no events) or committed the packed diff. -/
theorem updateAutoPacking_ok_cases {α : Type} (st : AtlasState)
    (data : Option (List α)) (getIcon : Option (α → Option Icon))
    (buffer maxW : Nat) (s' : AtlasState) (evs : List UpdateEvent)
    (hok : updateAutoPacking st data getIcon buffer maxW = .ok (s', evs)) :
    (s' = st ∧ evs = []) ∨
      ∃ diff, getDiffIcons data getIcon st.mapping = some (.ok diff) ∧
        (diff.map Prod.snd).length > 0 ∧
        (s', evs) = commitUpdate st (diff.map Prod.snd) buffer maxW := by
  revert hok
  unfold updateAutoPacking
  cases hdiff : getDiffIcons data getIcon st.mapping with
  | none =>
    intro hok
    injection hok with h
    injection h with h1 h2
    exact Or.inl ⟨h1.symm, h2.symm⟩
  | some r =>
    cases r with
    | error e => intro hok; exact Except.noConfusion hok
    | ok diff =>
      show (if (diff.map Prod.snd).length > 0 then
          Except.ok (commitUpdate st (diff.map Prod.snd) buffer maxW)
        else Except.ok (st, [])) = Except.ok (s', evs) → _
      by_cases hlen : (diff.map Prod.snd).length > 0
      · rw [if_pos hlen]
        intro hok
        injection hok with h
        exact Or.inr ⟨diff, rfl, hlen, h.symm⟩
      · rw [if_neg hlen]
        intro hok
        injection hok with h
        injection h with h1 h2
        exact Or.inl ⟨h1.symm, h2.symm⟩

/-- The state committed by `commitUpdate` carries the mapping produced by
`buildMapping` from the cached cursor. -/
theorem commitUpdate_fst_mapping (st : AtlasState) (icons : List Icon)
    (buffer maxW : Nat) :
    (commitUpdate st icons buffer maxW).1.mapping =
      (buildMapping icons buffer st.mapping st.xOffset st.yOffset maxW).mapping :=
  rfl

/-- Cache entry after a further update that re-sends icon `a` with a changed
url `url2`. -/
def stateAfterUrlChange : AtlasState :=
  applyUpdate stateAfterFirstUpdate (some [iconAUrl2]) (some some) 4 1024

/-- C5: the claim says a committed id is never reassigned a different
position. A batch whose icon has the same id but a changed url re-packs that
id from the current cursor: after packing `a` at `(0, 0)`, an update with
url `url2` moves `a`'s entry to `(14, 0)`. -/
theorem mapping_position_reassigned_on_url_change :
    stateAfterFirstUpdate.mapping "a" =
        some { id := "a", url := "url1", width := 10, height := 10, x := 0, y := 0 } ∧
      stateAfterUrlChange.mapping "a" =
        some { id := "a", url := "url2", width := 10, height := 10, x := 14, y := 0 } := by
  refine ⟨?_, ?_⟩ <;> decide

/-- C5 amended: an `_updateAutoPacking` call whose diff contains no icon
with id `k` leaves the mapping entry of `k` unchanged (a reassignment can
happen only for ids the differ returns, i.e. re-packed icons). -/
theorem updateAutoPacking_preserves_unrelated_ids {α : Type} (st : AtlasState)
    (data : Option (List α)) (getIcon : Option (α → Option Icon))
    (buffer maxW : Nat) (k : String)
    (hk : ∀ l, getDiffIcons data getIcon st.mapping = some (.ok l) →
      ∀ p ∈ l, getIconId p.2 ≠ k) :
    (applyUpdate st data getIcon buffer maxW).mapping k = st.mapping k := by
  unfold applyUpdate
  cases hu : updateAutoPacking st data getIcon buffer maxW with
  | error e => rfl
  | ok r =>
    obtain ⟨s', evs⟩ := r
    rcases updateAutoPacking_ok_cases st data getIcon buffer maxW s' evs hu with
      ⟨rfl, -⟩ | ⟨diff, hdiff, -, hcommit⟩
    · rfl
    · show s'.mapping k = st.mapping k
      have hs' : s' = (commitUpdate st (diff.map Prod.snd) buffer maxW).1 :=
        congrArg Prod.fst hcommit
      rw [hs', commitUpdate_fst_mapping]
      apply buildMapping_unrelated
      intro i hi
      obtain ⟨p, hp, rfl⟩ := List.mem_map.mp hi
      exact hk diff hdiff p hp

/-- Witness for the amended C5 theorem at a concrete input: updating with a
batch containing only icon `b` leaves the entry of id `a` unchanged. -/
theorem updateAutoPacking_preserves_unrelated_ids_witness :
    (∀ l, getDiffIcons (some [iconBUrl3]) (some some) stateAfterFirstUpdate.mapping =
        some (.ok l) → ∀ p ∈ l, getIconId p.2 ≠ "a") ∧
      (applyUpdate stateAfterFirstUpdate (some [iconBUrl3]) (some some) 4 1024).mapping
        "a" = stateAfterFirstUpdate.mapping "a" := by
  have hk : ∀ l, getDiffIcons (some [iconBUrl3]) (some some)
      stateAfterFirstUpdate.mapping = some (.ok l) →
      ∀ p ∈ l, getIconId p.2 ≠ "a" := by
    intro l hl p hp
    have he : getDiffIcons (some [iconBUrl3]) (some some)
        stateAfterFirstUpdate.mapping = some (.ok [("b", iconBUrl3)]) := rfl
    rw [he] at hl
    injection hl with h1
    injection h1 with h2
    rw [← h2] at hp
    rw [List.mem_singleton.mp hp]
    decide
  exact ⟨hk, updateAutoPacking_preserves_unrelated_ids stateAfterFirstUpdate
    (some [iconBUrl3]) (some some) 4 1024 "a" hk⟩

/-- Property of being the least power of two that is at least `H`. -/
def leastPowTwoGe (H v : Nat) : Prop :=
  v = 2 ^ Nat.clog 2 H ∧ H ≤ v ∧ ∀ j, H ≤ 2 ^ j → v ≤ 2 ^ j

/-- C6: with positive buffer, the canvas height returned by `buildMapping`
is the least power of two that is ≥ the final `rowHeight + yOffset + buffer`
of the packing loop (the last, possibly uncommitted shelf's height plus the
final shelf top plus the buffer). -/
theorem buildMapping_canvasHeight_least_pow_two (icons : List Icon)
    (buffer : Nat) (m : Mapping) (x y maxW : Nat) (hb : 0 < buffer) :
    leastPowTwoGe
      ((packRun icons buffer m x y maxW).rowHeight +
        (packRun icons buffer m x y maxW).yOffset + buffer)
      (buildMapping icons buffer m x y maxW).canvasHeight := by
  have hne : (packRun icons buffer m x y maxW).rowHeight +
      (packRun icons buffer m x y maxW).yOffset + buffer ≠ 0 := by omega
  have h1 : (buildMapping icons buffer m x y maxW).canvasHeight =
      nextPowOfTwo ((packRun icons buffer m x y maxW).rowHeight +
        (packRun icons buffer m x y maxW).yOffset + buffer) := rfl
  refine ⟨by rw [h1, nextPowOfTwo_eq_two_pow_clog hne], ?_, ?_⟩
  · rw [h1, nextPowOfTwo_eq_two_pow_clog hne]
    exact Nat.le_pow_clog (by norm_num) _
  · intro j hj
    rw [h1, nextPowOfTwo_eq_two_pow_clog hne]
    exact Nat.pow_le_pow_right (by norm_num)
      ((Nat.le_pow_iff_clog_le (by norm_num)).mp hj)

/-- Witness for C6 at a concrete input: one 10×10 icon, buffer 4. -/
theorem buildMapping_canvasHeight_least_pow_two_witness :
    0 < 4 ∧
      leastPowTwoGe
        ((packRun [iconAUrl1] 4 Mapping.empty 0 0 1024).rowHeight +
          (packRun [iconAUrl1] 4 Mapping.empty 0 0 1024).yOffset + 4)
        (buildMapping [iconAUrl1] 4 Mapping.empty 0 0 1024).canvasHeight :=
  ⟨by decide,
    buildMapping_canvasHeight_least_pow_two [iconAUrl1] 4 Mapping.empty 0 0 1024
      (by decide)⟩

/-- Batch record that makes `getDiffIcons` throw: its extracted icon is
absent, or the icon's url is missing. -/
def badPoint {α : Type} (g : α → Option Icon) (p : α) : Prop :=
  g p = none ∨ ∃ icon, g p = some icon ∧ icon.url = ""

/-- The differ loop throws whenever some point of the batch is bad. -/
theorem getDiffIconsGo_error {α : Type} (g : α → Option Icon) (cached : Mapping) :
    ∀ (pts : List α) (acc : DiffMap), (∃ p ∈ pts, badPoint g p) →
      ∃ e, getDiffIconsGo g cached acc pts = .error e := by
  intro pts
  induction pts with
  | nil =>
    intro acc h
    obtain ⟨p, hp, -⟩ := h
    exact absurd hp (List.not_mem_nil p)
  | cons q rest ih =>
    intro acc h
    unfold getDiffIconsGo
    cases hq : g q with
    | none => exact ⟨"Icon is missing.", rfl⟩
    | some icon =>
      by_cases hurl : icon.url = ""
      · refine ⟨"Icon url is missing.", ?_⟩
        simp [jsTruthy, hurl]
      · have hrest : ∃ p ∈ rest, badPoint g p := by
          obtain ⟨p, hp, hbad⟩ := h
          rcases List.mem_cons.mp hp with rfl | hmem
          · rcases hbad with h0 | ⟨icon2, hicon2, hurl2⟩
            · rw [hq] at h0
              exact absurd h0 (Option.some_ne_none icon)
            · rw [hq] at hicon2
              injection hicon2 with h3
              rw [← h3] at hurl2
              exact absurd hurl2 hurl
          · exact ⟨p, hmem, hbad⟩
        obtain ⟨e, he⟩ := ih _ hrest
        exact ⟨e, by simpa [jsTruthy, hurl] using he⟩

/-- C7: when some record of the batch yields no icon or an icon without a
url, `_updateAutoPacking` throws (`Icon is missing.` / `Icon url is
missing.`) and the cached state is left entirely unchanged — the throw
propagates out of the call before any packing result is committed. -/
theorem updateAutoPacking_error_leaves_state_unchanged {α : Type}
    (st : AtlasState) (pts : List α) (g : α → Option Icon) (buffer maxW : Nat)
    (hbad : ∃ p ∈ pts, badPoint g p) :
    (∃ e, updateAutoPacking st (some pts) (some g) buffer maxW = .error e) ∧
      applyUpdate st (some pts) (some g) buffer maxW = st := by
  obtain ⟨e, he⟩ := getDiffIconsGo_error g st.mapping pts [] hbad
  have hdiff : getDiffIcons (some pts) (some g) st.mapping = some (.error e) := by
    show some (getDiffIconsGo g st.mapping [] pts) = some (.error e)
    rw [he]
  have hupdate : updateAutoPacking st (some pts) (some g) buffer maxW = .error e := by
    unfold updateAutoPacking
    rw [hdiff]
  refine ⟨⟨e, hupdate⟩, ?_⟩
  unfold applyUpdate
  rw [hupdate]

/-- Icon record with a missing url, used as a concrete bad batch record. -/
def iconNoUrl : Icon := { id := "x", url := "", width := 5, height := 5 }

/-- Witness for C7 at a concrete input: a batch containing an icon whose url
is missing makes the update throw and leave the empty state untouched. -/
theorem updateAutoPacking_error_leaves_state_unchanged_witness :
    (∃ p ∈ [iconNoUrl], badPoint some p) ∧
      (∃ e, updateAutoPacking emptyAtlasState (some [iconNoUrl]) (some some) 4 1024
          = .error e) ∧
        applyUpdate emptyAtlasState (some [iconNoUrl]) (some some) 4 1024 =
          emptyAtlasState := by
  have hbad : ∃ p ∈ [iconNoUrl], badPoint some p :=
    ⟨iconNoUrl, List.mem_singleton_self _, Or.inr ⟨iconNoUrl, rfl, rfl⟩⟩
  exact ⟨hbad, updateAutoPacking_error_leaves_state_unchanged emptyAtlasState
    [iconNoUrl] some 4 1024 hbad⟩

/-- C8 counterexample: the claim says every committed state contains a
`canvasWidth` field equal to `maxCanvasWidth`. The commit on lines 291-297
writes `{mapping, texture, xOffset, yOffset, canvasHeight}` only, so after a
concrete update from the constructor state (whose object does carry
`canvasWidth: 0`) the cached entry carries no `canvasWidth` at all. -/
theorem committed_state_lacks_canvasWidth :
    emptyAtlasState.canvasWidth = some 0 ∧
      stateAfterFirstUpdate.canvasWidth = none := by
  refine ⟨rfl, ?_⟩
  decide

/-- C8 amended: a successful update that emitted events (i.e. took the
commit branch) commits a state that has a texture and `mapping`, `xOffset`,
`yOffset`, `canvasHeight` (structure fields), but no `canvasWidth`. -/
theorem updateAutoPacking_commit_shape {α : Type} (st : AtlasState)
    (data : Option (List α)) (getIcon : Option (α → Option Icon))
    (buffer maxW : Nat) (s' : AtlasState) (evs : List UpdateEvent)
    (hok : updateAutoPacking st data getIcon buffer maxW = .ok (s', evs))
    (hevs : evs ≠ []) :
    s'.canvasWidth = none ∧ s'.texture.isSome = true := by
  rcases updateAutoPacking_ok_cases st data getIcon buffer maxW s' evs hok with
    ⟨-, h2⟩ | ⟨diff, -, -, hcommit⟩
  · exact absurd h2 hevs
  · have hs' : s' = (commitUpdate st (diff.map Prod.snd) buffer maxW).1 :=
      congrArg Prod.fst hcommit
    rw [hs']
    exact ⟨rfl, rfl⟩

/-- Witness for the amended C8 theorem at a concrete input: the first update
with icon `a` commits a state with a texture and no `canvasWidth`. -/
theorem updateAutoPacking_commit_shape_witness :
    updateAutoPacking emptyAtlasState (some [iconAUrl1]) (some some) 4 1024 =
        .ok (commitUpdate emptyAtlasState [iconAUrl1] 4 1024) ∧
      (commitUpdate emptyAtlasState [iconAUrl1] 4 1024).2 ≠ [] ∧
      ((commitUpdate emptyAtlasState [iconAUrl1] 4 1024).1.canvasWidth = none ∧
        (commitUpdate emptyAtlasState [iconAUrl1] 4 1024).1.texture.isSome = true) := by
  refine ⟨rfl, by decide, ?_⟩
  exact updateAutoPacking_commit_shape emptyAtlasState (some [iconAUrl1])
    (some some) 4 1024 _ _ rfl (by decide)

/-- Cache holding a non-empty atlas state for context 0, as left behind by a
previous icon manager's update. -/
def nonEmptyCache : LRUCache := [(0, stateAfterFirstUpdate)]

/-- C9 counterexample: the claim says an atlas state is created empty only
on first registration, so constructing a second `IconManager` for a context
with a non-empty cached state should leave it unchanged. The constructor
(line 176) runs `cached.set(gl, empty)` unconditionally: after construction
the cached entry for context 0 is the empty state, although the previous
entry had icon `a` packed and cursor 14. -/
theorem iconManagerConstruct_overwrites_nonempty_state :
    LRUCache.lookup (iconManagerConstruct nonEmptyCache 0) 0 = some emptyAtlasState ∧
      stateAfterFirstUpdate.mapping "a" =
        some { id := "a", url := "url1", width := 10, height := 10, x := 0, y := 0 } ∧
      stateAfterFirstUpdate.xOffset = 14 ∧
      emptyAtlasState.mapping "a" = none ∧ emptyAtlasState.xOffset = 0 := by
  refine ⟨rfl, by decide, by decide, rfl, rfl⟩

/-- C9 amended: constructing an `IconManager` for a context always resets
that context's cache entry to the empty atlas state, whatever was cached
before — the state is re-created empty on every registration, not only the
first. -/
theorem iconManagerConstruct_always_registers_empty (c : LRUCache) (gl : Nat) :
    LRUCache.lookup (iconManagerConstruct c gl) gl = some emptyAtlasState := by
  simp [iconManagerConstruct, LRUCache.set, LRUCache.lookup]

/-- C10: when the looked-up key is absent from the active mapping —
the extracted icon's id in auto-packing mode, the extracted icon string in
prepacked mode — `getIconMapping` returns the empty object `{}` rather than
failing or yielding an undefined value. -/
theorem getIconMapping_absent_id_yields_empty_object {α β : Type}
    (gAuto : α → Icon) (cachedMapping : Mapping) (p : α)
    (gManual : β → String) (iconMapping : Mapping) (q : β)
    (h1 : cachedMapping (getIconId (gAuto p)) = none)
    (h2 : iconMapping (gManual q) = none) :
    getIconMappingAuto gAuto cachedMapping p = .emptyObject ∧
      getIconMappingManual gManual iconMapping q = .emptyObject := by
  unfold getIconMappingAuto getIconMappingManual
  rw [h1, h2]
  exact ⟨rfl, rfl⟩

/-- Witness for C10 at concrete inputs: id `b` is not in the cached mapping
`{a}`, and the string icon `zzz` is not in the user-supplied mapping. -/
theorem getIconMapping_absent_id_yields_empty_object_witness :
    cachedMappingA (getIconId iconBUrl3) = none ∧
      cachedMappingA "zzz" = none ∧
      getIconMappingAuto id cachedMappingA iconBUrl3 = .emptyObject ∧
      getIconMappingManual id cachedMappingA "zzz" = .emptyObject := by
  refine ⟨rfl, rfl, ?_⟩
  exact getIconMapping_absent_id_yields_empty_object id cachedMappingA iconBUrl3
    id cachedMappingA "zzz" rfl rfl

/-- Queued columns are horizontally disjoint, listed left to right. -/
def colsDisjoint (cols : List Column) : Prop :=
  List.Pairwise (fun a b => a.xOffset + a.icon.width ≤ b.xOffset) cols

/-- Packing-loop invariant: committed entries are pairwise non-overlapping
and lie entirely above the current shelf top; queued columns are pairwise
horizontally disjoint, end at or before the cursor, and are no taller than
the running shelf height. -/
def PackInv (s : PackState) : Prop :=
  (∀ k1 k2 e1 e2, k1 ≠ k2 → s.mapping k1 = some e1 → s.mapping k2 = some e2 →
    ¬boxesOverlap e1 e2) ∧
  (∀ k e, s.mapping k = some e → e.y + e.height ≤ s.yOffset) ∧
  colsDisjoint s.columns ∧
  (∀ c ∈ s.columns, c.xOffset + c.icon.width ≤ s.xOffset) ∧
  (∀ c ∈ s.columns, c.icon.height ≤ s.rowHeight)

/-- An entry of a committed shelf is either an untouched old entry (with no
column of the shelf sharing its key) or comes from one of the columns. -/
theorem buildRowMapping_lookup (cols : List Column) (m : Mapping) (y : Nat)
    (k : String) (e : Entry) (h : buildRowMapping m cols y k = some e) :
    (m k = some e ∧ ∀ c ∈ cols, getIconId c.icon ≠ k) ∨
      ∃ c ∈ cols, getIconId c.icon = k ∧ e = positionIcon c.icon c.xOffset y := by
  induction cols generalizing m with
  | nil => exact Or.inl ⟨h, by simp⟩
  | cons c cs ih =>
    have h2 : buildRowMapping
        (m.set (getIconId c.icon) (positionIcon c.icon c.xOffset y)) cs y k =
        some e := h
    rcases ih _ h2 with ⟨hset, hnone⟩ | ⟨c2, hc2, hid, he⟩
    · by_cases hk : k = getIconId c.icon
      · refine Or.inr ⟨c, by simp, hk.symm, ?_⟩
        rw [Mapping.set, if_pos hk] at hset
        injection hset with h3
        exact h3.symm
      · refine Or.inl ⟨?_, ?_⟩
        · rw [Mapping.set, if_neg hk] at hset
          exact hset
        · intro c2 hc2
          rcases List.mem_cons.mp hc2 with rfl | hmem
          · exact fun hcontra => hk hcontra.symm
          · exact hnone c2 hmem
    · exact Or.inr ⟨c2, List.mem_cons_of_mem c hc2, hid, he⟩

/-- Committing the shelf of an invariant-satisfying state produces no
overlapping pair of entries. -/
theorem commitRow_no_overlap (s : PackState) (h : PackInv s) :
    ∀ k1 k2 e1 e2, k1 ≠ k2 →
      buildRowMapping s.mapping s.columns s.yOffset k1 = some e1 →
      buildRowMapping s.mapping s.columns s.yOffset k2 = some e2 →
      ¬boxesOverlap e1 e2 := by
  obtain ⟨hP, hV, hpw, hxe, -⟩ := h
  have hpw2 : List.Pairwise
      (fun a b : Column => a.xOffset + a.icon.width ≤ b.xOffset ∨
        b.xOffset + b.icon.width ≤ a.xOffset) s.columns :=
    hpw.imp Or.inl
  have hsym : Symmetric
      (fun a b : Column => a.xOffset + a.icon.width ≤ b.xOffset ∨
        b.xOffset + b.icon.width ≤ a.xOffset) :=
    fun a b hab => hab.symm
  intro k1 k2 e1 e2 hne h1 h2
  rcases buildRowMapping_lookup _ _ _ _ _ h1 with ⟨ho1, -⟩ | ⟨c1, hc1, hid1, he1⟩ <;>
    rcases buildRowMapping_lookup _ _ _ _ _ h2 with ⟨ho2, -⟩ | ⟨c2, hc2, hid2, he2⟩
  · exact hP k1 k2 e1 e2 hne ho1 ho2
  · -- old entry vs freshly committed: the old one lies strictly above the shelf
    have hb1 : e1.y + e1.height ≤ s.yOffset := hV k1 e1 ho1
    intro hov
    rw [he2] at hov
    exact absurd hov.2.2.2 (by simp [positionIcon]; omega)
  · have hb2 : e2.y + e2.height ≤ s.yOffset := hV k2 e2 ho2
    intro hov
    rw [he1] at hov
    exact absurd hov.2.2.1 (by simp [positionIcon]; omega)
  · -- two freshly committed entries: their columns are horizontally disjoint
    have hcne : c1 ≠ c2 := by
      intro hcc
      rw [hcc, hid2] at hid1
      exact hne hid1.symm
    have hdis := (hpw2.forall hsym) hc1 hc2 hcne
    intro hov
    rw [he1, he2] at hov
    rcases hdis with hd | hd
    · exact absurd hov.2.1 (by simp [positionIcon]; omega)
    · exact absurd hov.1 (by simp [positionIcon]; omega)

/-- Every entry of a committed shelf ends at or above the shelf top plus the
shelf's running height. -/
theorem commitRow_below (s : PackState) (h : PackInv s) :
    ∀ k e, buildRowMapping s.mapping s.columns s.yOffset k = some e →
      e.y + e.height ≤ s.yOffset + s.rowHeight := by
  obtain ⟨-, hV, -, -, hhe⟩ := h
  intro k e he
  rcases buildRowMapping_lookup _ _ _ _ _ he with ⟨ho, -⟩ | ⟨c, hc, -, hec⟩
  · exact (hV k e ho).trans (Nat.le_add_right _ _)
  · rw [hec]
    simp only [positionIcon]
    exact Nat.add_le_add_left (hhe c hc) _

/-- Closing the shelf preserves the packing invariant. -/
theorem closeRow_inv (buffer : Nat) (s : PackState) (h : PackInv s) :
    PackInv (closeRow buffer s) := by
  refine ⟨?_, ?_, ?_, ?_, ?_⟩
  · exact commitRow_no_overlap s h
  · intro k e he
    have := commitRow_below s h k e he
    show e.y + e.height ≤ s.rowHeight + s.yOffset + buffer
    omega
  · exact List.Pairwise.nil
  · intro c hc
    exact absurd hc (List.not_mem_nil c)
  · intro c hc
    exact absurd hc (List.not_mem_nil c)

/-- Queueing an icon preserves the packing invariant. -/
theorem pushIcon_inv (buffer : Nat) (s : PackState) (icon : Icon)
    (h : PackInv s) : PackInv (pushIcon buffer s icon) := by
  obtain ⟨hP, hV, hpw, hxe, hhe⟩ := h
  refine ⟨hP, hV, ?_, ?_, ?_⟩
  · show colsDisjoint (s.columns ++ [{ icon := icon, xOffset := s.xOffset }])
    rw [colsDisjoint, List.pairwise_append]
    refine ⟨hpw, List.pairwise_singleton _ _, ?_⟩
    intro a ha b hb
    rw [List.mem_singleton.mp hb]
    exact hxe a ha
  · intro c hc
    rcases List.mem_append.mp hc with hmem | hmem
    · refine (hxe c hmem).trans ?_
      show s.xOffset ≤ s.xOffset + icon.width + buffer
      omega
    · rw [List.mem_singleton.mp hmem]
      show s.xOffset + icon.width ≤ s.xOffset + icon.width + buffer
      omega
  · intro c hc
    rcases List.mem_append.mp hc with hmem | hmem
    · exact (hhe c hmem).trans (Nat.le_max_left _ _)
    · rw [List.mem_singleton.mp hmem]
      exact Nat.le_max_right _ _

/-- One loop iteration preserves the packing invariant. -/
theorem packStep_inv (buffer maxW : Nat) (s : PackState) (icon : Icon)
    (h : PackInv s) : PackInv (packStep buffer maxW s icon) := by
  unfold packStep
  by_cases hclose : maxW < s.xOffset + icon.width + buffer
  · rw [if_pos hclose]
    exact pushIcon_inv buffer _ icon (closeRow_inv buffer s h)
  · rw [if_neg hclose]
    exact pushIcon_inv buffer s icon h

/-- The whole packing loop preserves the invariant. -/
theorem packFoldl_inv (buffer maxW : Nat) :
    ∀ (icons : List Icon) (s : PackState), PackInv s →
      PackInv (icons.foldl (packStep buffer maxW) s) := by
  intro icons
  induction icons with
  | nil => exact fun s h => h
  | cons i is ih => exact fun s h => ih _ (packStep_inv buffer maxW s i h)

/-- C3 amended: within one `buildMapping` call starting from an empty
mapping (arbitrary starting cursor), any two entries at distinct ids of the
resulting mapping have disjoint exact boxes. The cross-call form of the
claim fails (`rowHeight` of the previous call's last shelf is not part of
the resumed cursor), as the counterexample shows. -/
theorem buildMapping_single_call_no_overlap (icons : List Icon)
    (buffer x y maxW : Nat) (k1 k2 : String) (e1 e2 : Entry) (hne : k1 ≠ k2)
    (h1 : (buildMapping icons buffer Mapping.empty x y maxW).mapping k1 = some e1)
    (h2 : (buildMapping icons buffer Mapping.empty x y maxW).mapping k2 = some e2) :
    ¬boxesOverlap e1 e2 := by
  have hinit : PackInv
      { mapping := Mapping.empty, xOffset := x, yOffset := y,
        rowHeight := 0, columns := [] } := by
    refine ⟨?_, ?_, List.Pairwise.nil, ?_, ?_⟩
    · intro k1' k2' e1' e2' _ hl _
      exact absurd hl (by simp [Mapping.empty])
    · intro k e hl
      exact absurd hl (by simp [Mapping.empty])
    · intro c hc
      exact absurd hc (List.not_mem_nil c)
    · intro c hc
      exact absurd hc (List.not_mem_nil c)
  have hinv : PackInv (packRun icons buffer Mapping.empty x y maxW) :=
    packFoldl_inv buffer maxW icons _ hinit
  have hm1 : flushedMapping (packRun icons buffer Mapping.empty x y maxW) k1 =
      some e1 := h1
  have hm2 : flushedMapping (packRun icons buffer Mapping.empty x y maxW) k2 =
      some e2 := h2
  unfold flushedMapping at hm1 hm2
  by_cases hlen : (packRun icons buffer Mapping.empty x y maxW).columns.length > 0
  · rw [if_pos hlen] at hm1 hm2
    exact commitRow_no_overlap _ hinv k1 k2 e1 e2 hne hm1 hm2
  · rw [if_neg hlen] at hm1 hm2
    exact hinv.1 k1 k2 e1 e2 hne hm1 hm2

/-- Witness for the amended C3 theorem at a concrete input: two 40×20 icons
packed in one call occupy disjoint boxes. -/
theorem buildMapping_single_call_no_overlap_witness :
    ("i1" : String) ≠ "i2" ∧
      (buildMapping [squareIcon1, squareIcon2] 4 Mapping.empty 0 0 100).mapping "i1" =
        some { id := "i1", url := "u1", width := 40, height := 20, x := 0, y := 0 } ∧
      (buildMapping [squareIcon1, squareIcon2] 4 Mapping.empty 0 0 100).mapping "i2" =
        some { id := "i2", url := "u2", width := 40, height := 20, x := 44, y := 0 } ∧
      ¬boxesOverlap
        { id := "i1", url := "u1", width := 40, height := 20, x := 0, y := 0 }
        { id := "i2", url := "u2", width := 40, height := 20, x := 44, y := 0 } := by
  refine ⟨by decide, by decide, by decide, ?_⟩
  exact buildMapping_single_call_no_overlap [squareIcon1, squareIcon2] 4 0 0 100
    "i1" "i2" _ _ (by decide) (by decide) (by decide)
